import Mathlib

/-!
Shallow embedding of the MortgageWise / RateCroft rates API
(`src/server.js`, plus the earlier variant in `src/unnamed/part_000`).

Numbers are modelled as exact rationals (`ℚ`).  JavaScript's
`Math.round` is `⌊x + 1/2⌋`; `x.toFixed(d)` followed by `parseFloat`
(the pervasive `+(e).toFixed(d)` idiom) is modelled as rounding to `d`
decimal digits with the same `⌊x·10^d + 1/2⌋ / 10^d` rule.  (The two
rules agree except at exact `.5` ties of negative numbers, which none
of the concrete evaluations below come near.)
-/

set_option maxRecDepth 2000

namespace MortgageWise

/-- JavaScript `Math.round`: round half up.  Written with `Rat.floor`
so that concrete evaluations reduce; `jsRound_def` restates it with the
mathematical floor. -/
def jsRound (q : ℚ) : ℤ := (q + 1/2).floor

theorem ratFloor_eq_intFloor (q : ℚ) : q.floor = ⌊q⌋ := by
  rw [Rat.floor_def', Rat.floor_def]

theorem jsRound_def (q : ℚ) : jsRound q = ⌊q + 1/2⌋ := ratFloor_eq_intFloor _

/-- `+(e).toFixed(1)`: round to 1 decimal digit. -/
def round1 (q : ℚ) : ℚ := (jsRound (q * 10) : ℚ) / 10

/-- `+(e).toFixed(2)`: round to 2 decimal digits. -/
def round2 (q : ℚ) : ℚ := (jsRound (q * 100) : ℚ) / 100

/-- `+(e).toFixed(3)`: round to 3 decimal digits. -/
def round3 (q : ℚ) : ℚ := (jsRound (q * 1000) : ℚ) / 1000

/-- Fuel-based binary exponentiation on `ℚ`: `qpowAux q fuel n = q ^ n`
for `n < 2 ^ fuel` (proved below).  Used instead of `Monoid.npow` so
that concrete evaluations reduce with shallow recursion. -/
def qpowAux (q : ℚ) : ℕ → ℕ → ℚ
  | 0, _ => 1
  | fuel + 1, n =>
    if n = 0 then 1
    else
      let h := qpowAux q fuel (n / 2)
      if n % 2 = 0 then h * h else q * (h * h)

/-- `Math.pow(q, n)` for a natural exponent: equals `q ^ n` for every
exponent below `2 ^ 16` (`qpow_eq`), far beyond any month count the
handlers produce. -/
def qpow (q : ℚ) (n : ℕ) : ℚ := qpowAux q 16 n

theorem qpowAux_eq (q : ℚ) : ∀ (fuel n : ℕ), n < 2 ^ fuel → qpowAux q fuel n = q ^ n
  | 0, n, h => by
    interval_cases n
    simp [qpowAux]
  | fuel + 1, n, h => by
    rcases Nat.eq_zero_or_pos n with rfl | hn
    · simp [qpowAux]
    · have hne : n ≠ 0 := Nat.pos_iff_ne_zero.mp hn
      have hlt : n / 2 < 2 ^ fuel := by
        have h2 : (2:ℕ) ^ (fuel + 1) = 2 ^ fuel * 2 := by ring
        omega
      have ih := qpowAux_eq q fuel (n / 2) hlt
      rcases Nat.mod_two_eq_zero_or_one n with he | ho
      · have hsum : n / 2 + n / 2 = n := by omega
        simp only [qpowAux, hne, if_false, he, ih, ite_true, eq_self_iff_true]
        rw [← pow_add, hsum]
      · have hsum : n / 2 + n / 2 + 1 = n := by omega
        simp only [qpowAux, hne, if_false, ho, one_ne_zero, ite_false, ih]
        rw [← pow_add, ← pow_succ', hsum]

/-- `qpow` agrees with the mathematical power on every exponent the
embedded handlers can produce. -/
theorem qpow_eq (q : ℚ) (n : ℕ) (h : n < 2 ^ 16) : qpow q n = q ^ n :=
  qpowAux_eq q 16 n h

/-- A stable ascending insert: the new element goes after every
existing element the comparator considers `≤` it.  Used to model
JavaScript's `Array.prototype.sort`, which is stable (ES2019). -/
def insertStable (le : α → α → Bool) (a : α) : List α → List α
  | [] => [a]
  | b :: bs => if le b a then b :: insertStable le a bs else a :: b :: bs

/-- Stable ascending sort (same output as any stable comparator sort,
hence as JavaScript `Array.prototype.sort` with a numeric comparator). -/
def sortStable (le : α → α → Bool) (l : List α) : List α :=
  l.foldl (fun acc x => insertStable le x acc) []

/-!
## Rate derivation engine (`deriveRates`, src/server.js lines 125-135)
-/

/-- The derived rate set returned by `deriveRates`. -/
structure DerivedRates where
  rate_20yr    : ℚ
  rate_fha30   : ℚ
  rate_va30    : ℚ
  rate_usda30  : ℚ
  rate_jumbo30 : ℚ
  rate_arm71   : ℚ
  rate_cashout : ℚ
  deriving DecidableEq, Repr

/-- `deriveRates(base30)` from src/server.js: each product rate is the
benchmark plus a fixed constant offset, rounded to 2 decimals. -/
def deriveRates (base30 : ℚ) : DerivedRates :=
  { rate_20yr    := round2 (base30 - 0.25)
    rate_fha30   := round2 (base30 - 0.25)
    rate_va30    := round2 (base30 - 0.50)
    rate_usda30  := round2 (base30 - 0.30)
    rate_jumbo30 := round2 (base30 + 0.25)
    rate_arm71   := round2 (base30 - 0.40)
    rate_cashout := round2 (base30 + 0.30) }

/-- C9: for every benchmark `r`, `jumbo30 − fha30 = 0.50`. -/
theorem deriveRates_jumbo_sub_fha (r : ℚ) :
    (deriveRates r).rate_jumbo30 - (deriveRates r).rate_fha30 = 0.50 := by
  show round2 (r + 0.25) - round2 (r - 0.25) = 0.50
  unfold round2
  rw [jsRound_def, jsRound_def]
  have h1 : (r + 0.25) * 100 + 1/2 = (r * 100 + 1/2) + (25 : ℤ) := by push_cast; ring
  have h2 : (r - 0.25) * 100 + 1/2 = (r * 100 + 1/2) - (25 : ℤ) := by push_cast; ring
  rw [h1, h2, Int.floor_add_int, Int.floor_sub_int]
  push_cast
  ring_nf

/-!
## Amortization calculator (`GET /api/calculate`, src/server.js lines 359-386)

The handler is modelled for integer term years (`n = term*12` months,
as the schedule loop assumes).  `monthly` and `loan` carry the fields
the claims are about.
-/

/-- The `monthly` object of the `/api/calculate` response. -/
structure CalcMonthly where
  principal_interest : ℚ
  property_tax : ℚ
  insurance : ℚ
  hoa : ℚ
  pmi : ℚ
  total : ℚ
  deriving DecidableEq, Repr

/-- The `loan` object of the `/api/calculate` response. -/
structure CalcLoan where
  amount : ℚ
  ltv : ℚ
  pmi_required : Bool
  total_payments : ℚ
  total_interest : ℚ
  deriving DecidableEq, Repr

/-- The parts of the `/api/calculate` response the claims mention. -/
structure CalcResult where
  monthly : CalcMonthly
  loan : CalcLoan
  deriving DecidableEq, Repr

/-- The `/api/calculate` handler (src/server.js lines 359-386), up to
the amortization schedule.  Principal ≤ 0 is rejected with a client
error, mirroring the 400 response. -/
def calculate (price down rate : ℚ) (term : ℕ)
    (property_tax insurance hoa : ℚ) : Except String CalcResult :=
  let principal := price - down
  if principal ≤ 0 then .error "Down payment cannot exceed price"
  else
    let r := rate / 100 / 12
    let n := term * 12
    let pi : ℚ :=
      if 0 < r then principal * (r * qpow (1+r) n) / (qpow (1+r) n - 1)
      else principal / n
    let taxMo := property_tax / 12
    let insMo := insurance / 12
    let ltv := principal / price * 100
    let pmi : ℚ := if 80 < ltv then round2 (principal * 0.01 / 12) else 0
    .ok
      { monthly :=
          { principal_interest := round2 pi
            property_tax := round2 taxMo
            insurance := round2 insMo
            hoa := round2 hoa
            pmi := pmi
            total := round2 (pi + taxMo + insMo + hoa + pmi) }
        loan :=
          { amount := round2 principal
            ltv := round1 ltv
            pmi_required := decide (80 < ltv)
            total_payments := round2 (pi * n)
            total_interest := round2 (pi * n - principal) } }

/-- C8 counterexample: at `price=400000, down=80000, rate=6.75, term=30`
the code's `principal_interest` is `2075.51`, which is NOT within
`0.01` of the claimed `2075.86`. -/
theorem calculate_pi_not_close_to_claimed :
    ((calculate 400000 80000 6.75 30 0 0 0).toOption.map
      (fun res => res.monthly.principal_interest)) = some 2075.51
    ∧ ¬ |(2075.51 : ℚ) - 2075.86| ≤ 0.01 := by
  constructor
  · with_unfolding_all rfl
  · rw [show (2075.51 : ℚ) - 2075.86 = -0.35 by norm_num, abs_neg,
      abs_of_nonneg (by norm_num : (0:ℚ) ≤ 0.35)]
    norm_num

/-- C8 (amended): for every valid loan request, the reported LTV is
`principal / price × 100` (rounded to 1 decimal) and PMI applies
exactly when the (unrounded) LTV exceeds 80, at 1% of principal per
year billed monthly; the concrete input
`price=400000, down=80000, rate=6.75, term=30` yields
`principal_interest = 2075.51`, `ltv = 80.0`, `pmi_required = false`. -/
theorem calculate_ltv_pmi_spec :
    (∀ (price down rate : ℚ) (term : ℕ) (ptax ins hoa : ℚ),
      0 < price - down →
      ∃ res, calculate price down rate term ptax ins hoa = .ok res
        ∧ res.loan.ltv = round1 ((price - down) / price * 100)
        ∧ res.loan.pmi_required = decide ((80:ℚ) < (price - down) / price * 100)
        ∧ res.monthly.pmi =
            (if (80:ℚ) < (price - down) / price * 100
             then round2 ((price - down) * 0.01 / 12) else 0))
    ∧ ((calculate 400000 80000 6.75 30 0 0 0).toOption.map
        (fun res => (res.monthly.principal_interest, res.loan.ltv, res.loan.pmi_required)))
      = some (2075.51, 80.0, false) := by
  constructor
  · intro price down rate term ptax ins hoa h
    simp only [calculate, if_neg (not_le.mpr h)]
    exact ⟨_, rfl, rfl, rfl, rfl⟩
  · with_unfolding_all rfl

/-- Witness for the amended C8 theorem's hypothesis `0 < price - down`:
applies it at `price = 500000`, `down = 100000`. -/
theorem calculate_ltv_pmi_spec_witness :
    ∃ res, calculate 500000 100000 6 30 0 0 0 = .ok res
      ∧ res.loan.ltv = round1 ((500000 - 100000) / 500000 * 100)
      ∧ res.loan.pmi_required = decide ((80:ℚ) < (500000 - 100000) / 500000 * 100)
      ∧ res.monthly.pmi =
          (if (80:ℚ) < (500000 - 100000) / 500000 * 100
           then round2 ((500000 - 100000) * 0.01 / 12) else 0) :=
  calculate_ltv_pmi_spec.1 500000 100000 6 30 0 0 0 (by norm_num)

/-!
## Affordability calculator (`GET /api/affordability`, src/server.js lines 389-402)
-/

/-- The level-payment factor `f` computed by the affordability handler:
`r·(1+r)^n / ((1+r)^n − 1)` for a positive monthly rate, else `1/n`. -/
def payFactor (r : ℚ) (n : ℕ) : ℚ :=
  if 0 < r then r * qpow (1+r) n / (qpow (1+r) n - 1) else 1 / n

/-- One branch (`recommended` / `conservative`) of the
`/api/affordability` response. -/
structure AffordBranch where
  max_home_price : ℤ
  max_loan : ℤ
  monthly_payment : ℚ
  dti : ℚ
  deriving DecidableEq, Repr

/-- The `/api/affordability` response. -/
structure AffordResult where
  recommended : AffordBranch
  conservative : AffordBranch
  monthly_income : ℚ
  deriving DecidableEq, Repr

/-- The `/api/affordability` handler (src/server.js lines 389-402),
modelled for integer term years. -/
def affordability (annual_income monthly_debts down_payment rate : ℚ)
    (term : ℕ) (dti_limit : ℚ) : AffordResult :=
  let mo := annual_income / 12
  let f := payFactor (rate / 100 / 12) (term * 12)
  let avail43 := mo * (dti_limit / 100) - monthly_debts
  let avail28 := mo * 0.28
  { recommended :=
      { max_home_price := jsRound (avail43 / f + down_payment)
        max_loan := jsRound (avail43 / f)
        monthly_payment := round2 avail43
        dti := dti_limit }
    conservative :=
      { max_home_price := jsRound (avail28 / f + down_payment)
        max_loan := jsRound (avail28 / f)
        monthly_payment := round2 avail28
        dti := 28 }
    monthly_income := round2 mo }

/-- C6: the `conservative` branch is pinned to the 28% housing ratio —
its monthly payment is `round2(annual_income/12 × 0.28)`, its max loan
is that (unrounded) budget divided by the payment factor (rounded to a
whole dollar), and the whole branch is independent of the caller's
`dti_limit`; the `recommended` branch budgets
`monthly_income × dti/100 − monthly_debts`. -/
theorem affordability_conservative_pinned
    (a d dp rt : ℚ) (t : ℕ) (dti dti' : ℚ) :
    (affordability a d dp rt t dti).conservative
      = (affordability a d dp rt t dti').conservative
    ∧ (affordability a d dp rt t dti).conservative.monthly_payment
      = round2 (a / 12 * 0.28)
    ∧ (affordability a d dp rt t dti).conservative.max_loan
      = jsRound ((a / 12 * 0.28) / payFactor (rt / 100 / 12) (t * 12))
    ∧ (affordability a d dp rt t dti).recommended.monthly_payment
      = round2 (a / 12 * (dti / 100) - d)
    ∧ (affordability a d dp rt t dti).recommended.max_loan
      = jsRound ((a / 12 * (dti / 100) - d) / payFactor (rt / 100 / 12) (t * 12)) :=
  ⟨rfl, rfl, rfl, rfl, rfl⟩

/-!
## Refinance calculator (`GET /api/refinance`, src/server.js lines 405-420)
-/

/-- The inner `pmt` arrow function of the refinance handler. -/
def refiPmt (bal rt : ℚ) (yrs : ℕ) : ℚ :=
  let r := rt / 100 / 12
  let n := yrs * 12
  if 0 < r then bal * (r * qpow (1+r) n) / (qpow (1+r) n - 1) else bal / n

/-- The `monthly` object of the `/api/refinance` response. -/
structure RefiMonthly where
  current_payment : ℚ
  new_payment : ℚ
  monthly_savings : ℚ
  deriving DecidableEq, Repr

/-- The `breakeven` object of the `/api/refinance` response.
`months = none` models the JSON `null`. -/
structure RefiBreakeven where
  months : Option ℤ
  years : Option ℚ
  worth_it : Bool
  deriving DecidableEq, Repr

/-- The parts of the `/api/refinance` response the claims mention. -/
structure RefiResult where
  monthly : RefiMonthly
  breakeven : RefiBreakeven
  deriving DecidableEq, Repr

/-- The `/api/refinance` handler (src/server.js lines 405-420).
`beMo` is `ceil(closing_costs / savings)` when savings are positive,
else `null`.  The JavaScript expressions `beMo ? e1 : e2` are
truthiness tests: both `null` AND `0` select `e2`, which the model
captures with `beTruthy`. -/
def refinance (current_balance current_rate new_rate : ℚ)
    (remaining_term new_term : ℕ) (closing_costs : ℚ) : RefiResult :=
  let bal := current_balance
  let currPmt := refiPmt bal current_rate remaining_term
  let newPmt := refiPmt bal new_rate new_term
  let savings := currPmt - newPmt
  let beMo : Option ℤ :=
    if 0 < savings then some (closing_costs / savings).ceil else none
  let beTruthy : Bool := match beMo with
    | some m => decide (m ≠ 0)
    | none => false
  { monthly :=
      { current_payment := round2 currPmt
        new_payment := round2 newPmt
        monthly_savings := round2 savings }
    breakeven :=
      { months := beMo
        years := if beTruthy then some (round1 ((beMo.getD 0 : ℚ) / 12)) else none
        worth_it := if beTruthy then decide (beMo.getD 0 < (new_term : ℤ) * 12) else false } }

/-- C2 (code bug): with `closing_costs = 0` and the remaining handler
defaults (`current_balance=320000, current_rate=7.5, new_rate=6.75,
remaining_term=25, new_term=30`) the monthly savings are positive and
`breakeven.months = 0`, yet `worth_it` is `false` — the JavaScript
truthiness test `beMo ? … : false` treats the breakeven month `0` as
falsy, contradicting the spec's "breakeven occurs before the new
loan's own term ends". -/
theorem refinance_zero_costs_worth_it_false :
    0 < (refinance 320000 7.5 6.75 25 30 0).monthly.monthly_savings
    ∧ (refinance 320000 7.5 6.75 25 30 0).breakeven.months = some 0
    ∧ (refinance 320000 7.5 6.75 25 30 0).breakeven.worth_it = false := by
  refine ⟨?_, ?_, ?_⟩
  · with_unfolding_all decide
  · with_unfolding_all rfl
  · with_unfolding_all rfl

/-!
## FRED series fetch (`fetchFredSeries`)

`src/unnamed/part_000` lines 59-98 (the variant whose result carries
`prevValue`) and `src/server.js` lines 81-123 (the variant with the
static fallback).  An upstream observation's `value` field is either
the missing-value sentinel `"."` or a numeric string; the model
separates the two cases as an inductive value.
-/

/-- An upstream observation value: the FRED missing sentinel `"."` or a
numeric string (already read as a number). -/
inductive FredValue
  | missing
  | num (v : ℚ)
  deriving DecidableEq, Repr

/-- The numeric reading of an observation value.  After the sentinel
filter only `num` values remain, so the `missing` case is unreachable
where this is used (JavaScript would produce `NaN` there). -/
def FredValue.toNum : FredValue → ℚ
  | .missing => 0
  | .num v => v

/-- One upstream observation, newest first as requested
(`sort_order: "desc"`). -/
structure FredObs where
  date : String
  value : FredValue
  deriving DecidableEq, Repr

/-- Errors thrown by `fetchFredSeries`. -/
inductive FredError
  | upstreamUnavailable
  | upstreamEmpty (seriesId : String)
  deriving DecidableEq, Repr

/-- The resolved series of `src/unnamed/part_000` (with `prevValue`). -/
structure ResolvedSeriesFull where
  seriesId : String
  value : ℚ
  prevValue : ℚ
  change : ℚ
  date : String
  history : List (String × ℚ)
  deriving DecidableEq, Repr

/-- The observation-processing tail of `fetchFredSeries` in
`src/unnamed/part_000` (lines 78-97): filter the sentinel, fail when
nothing remains, otherwise read `value`, `prevValue`
(`observations[1] || latest`), `change` and the 8-entry history. -/
def processObservations (seriesId : String) (observations : List FredObs) :
    Except FredError ResolvedSeriesFull :=
  let obs := observations.filter (fun o => o.value ≠ FredValue.missing)
  match obs with
  | [] => .error (.upstreamEmpty seriesId)
  | latest :: rest =>
    let prev := rest.headD latest
    .ok
      { seriesId := seriesId
        value := latest.value.toNum
        prevValue := prev.value.toNum
        change := round3 (latest.value.toNum - prev.value.toNum)
        date := latest.date
        history := (obs.take 8).map (fun o => (o.date, o.value.toNum)) }

theorem round3_zero : round3 0 = 0 := by
  norm_num [round3, jsRound_def]

/-- C7: processing a miss with credentials strips exactly the sentinel
observations, fails with the empty-series error exactly when nothing
remains, and otherwise reports `value` = newest remaining observation,
`previousValue` = second newest (the newest again when only one
remains, making `change` zero), and
`change = round3(value − previousValue)`. -/
theorem processObservations_spec (sid : String) (observations : List FredObs) :
    (processObservations sid observations = .error (.upstreamEmpty sid)
      ↔ observations.filter (fun o => o.value ≠ FredValue.missing) = [])
    ∧ (∀ latest rest,
        observations.filter (fun o => o.value ≠ FredValue.missing) = latest :: rest →
        ∃ res, processObservations sid observations = .ok res
          ∧ res.value = latest.value.toNum
          ∧ res.prevValue = (rest.headD latest).value.toNum
          ∧ res.change = round3 (res.value - res.prevValue)
          ∧ (rest = [] → res.change = 0)) := by
  constructor
  · unfold processObservations
    cases h : observations.filter (fun o => o.value ≠ FredValue.missing) with
    | nil => simp
    | cons a l => simp
  · intro latest rest h
    unfold processObservations
    rw [h]
    refine ⟨_, rfl, rfl, rfl, rfl, ?_⟩
    rintro rfl
    simp only [List.headD, sub_self]
    exact round3_zero

/-- Witness for `processObservations_spec`: a three-observation list
whose middle entry carries the sentinel. -/
theorem processObservations_spec_witness :
    ∃ res,
      processObservations "MORTGAGE30US"
        [⟨"2026-02-20", .num 6.76⟩, ⟨"2026-02-13", .missing⟩, ⟨"2026-02-06", .num 6.8⟩]
        = .ok res
      ∧ res.value = (FredValue.num 6.76).toNum
      ∧ res.prevValue = (([⟨"2026-02-06", FredValue.num 6.8⟩] :
          List FredObs).headD ⟨"2026-02-20", .num 6.76⟩).value.toNum
      ∧ res.change = round3 (res.value - res.prevValue)
      ∧ ([⟨"2026-02-06", FredValue.num 6.8⟩] = ([] : List FredObs) → res.change = 0) :=
  (processObservations_spec "MORTGAGE30US"
      [⟨"2026-02-20", .num 6.76⟩, ⟨"2026-02-13", .missing⟩, ⟨"2026-02-06", .num 6.8⟩]).2
    ⟨"2026-02-20", .num 6.76⟩ [⟨"2026-02-06", .num 6.8⟩] (by with_unfolding_all rfl)

/-!
## Fallback resolver and the rates handlers (src/server.js)
-/

/-- The resolved series shape of `src/server.js` (no `prevValue`). -/
structure ResolvedSeries where
  seriesId : String
  value : ℚ
  change : ℚ
  date : String
  history : List (String × ℚ)
  deriving DecidableEq, Repr

/-- `FRED_SERIES` reversed: the key whose value is the given series id
(`Object.keys(FRED_SERIES).find(...)`, src/server.js line 88). -/
def fredSeriesKey (seriesId : String) : Option String :=
  match seriesId with
  | "MORTGAGE30US" => some "rate_30yr"
  | "MORTGAGE15US" => some "rate_15yr"
  | "DGS10" => some "treasury10"
  | "FEDFUNDS" => some "fed_funds"
  | "DPRIME" => some "prime_rate"
  | _ => none

/-- The `FALLBACK` table (src/server.js lines 63-70): value, change,
date. -/
def FALLBACK (key : String) : Option (ℚ × ℚ × String) :=
  match key with
  | "rate_30yr" => some (6.76, -0.04, "2026-02-20")
  | "rate_15yr" => some (6.03, -0.03, "2026-02-20")
  | "rate_arm51" => some (6.15, -0.06, "2026-02-20")
  | "treasury10" => some (4.28, 0.05, "2026-02-27")
  | "fed_funds" => some (5.33, 0, "2026-02-01")
  | "prime_rate" => some (8.50, 0, "2026-02-01")
  | _ => none

/-- The static fallback record built when no FRED key is configured
(src/server.js lines 87-92): `FALLBACK[key] || {6.75, 0, "2026-02-20"}`
with a one-point history. -/
def fallbackRecord (seriesId : String) : ResolvedSeries :=
  let fb := ((fredSeriesKey seriesId).bind FALLBACK).getD (6.75, 0, "2026-02-20")
  { seriesId := seriesId
    value := fb.1
    change := fb.2.1
    date := fb.2.2
    history := [(fb.2.2, fb.1)] }

/-- The observation-processing tail of `fetchFredSeries` in
`src/server.js` (lines 107-119); same computation as
`processObservations` but without a `prevValue` field. -/
def serverProcessObs (seriesId : String) (observations : List FredObs) :
    Except FredError ResolvedSeries :=
  let obs := observations.filter (fun o => o.value ≠ FredValue.missing)
  match obs with
  | [] => .error (.upstreamEmpty seriesId)
  | latest :: rest =>
    let prev := rest.headD latest
    .ok
      { seriesId := seriesId
        value := latest.value.toNum
        change := round3 (latest.value.toNum - prev.value.toNum)
        date := latest.date
        history := (obs.take 8).map (fun o => (o.date, o.value.toNum)) }

/-- The outcome of the one upstream HTTP request a cold fetch makes:
either an observation list or a timeout/transport failure. -/
inductive Upstream
  | ok (observations : List FredObs)
  | unavailable
  deriving DecidableEq, Repr

/-- `fetchFredSeries` (src/server.js lines 81-123) for one series:
cache hit → cached record; no key → static fallback (never contacts the
upstream); key + upstream failure → the error propagates; key + data →
observation processing.  The cache write is the caller-visible result
and is not modelled separately here (see the single-flight model below
for the cache state machine). -/
def fetchFredSeries (hasKey : Bool) (cached : Option ResolvedSeries)
    (seriesId : String) (upstream : Upstream) : Except FredError ResolvedSeries :=
  match cached with
  | some c => .ok c
  | none =>
    if hasKey then
      match upstream with
      | .unavailable => .error .upstreamUnavailable
      | .ok observations => serverProcessObs seriesId observations
    else .ok (fallbackRecord seriesId)

/-- An HTTP outcome: 200 with a payload, 400, or 500 carrying the
caught error. -/
inductive HttpOutcome (α : Type)
  | ok (a : α)
  | clientError
  | serverError (e : FredError)
  deriving DecidableEq, Repr

/-- The aggregate `GET /api/rates` handler (src/server.js lines
203-225) with a cold `all_rates` cache: resolves the five FRED series
(`Promise.all`) and turns any thrown error into a 500. -/
def ratesHandler (hasKey : Bool) (cached : String → Option ResolvedSeries)
    (upstream : String → Upstream) : HttpOutcome (List ResolvedSeries) :=
  let run : Except FredError (List ResolvedSeries) := do
    let r30 ← fetchFredSeries hasKey (cached "MORTGAGE30US") "MORTGAGE30US" (upstream "MORTGAGE30US")
    let r15 ← fetchFredSeries hasKey (cached "MORTGAGE15US") "MORTGAGE15US" (upstream "MORTGAGE15US")
    let t10 ← fetchFredSeries hasKey (cached "DGS10") "DGS10" (upstream "DGS10")
    let ff ← fetchFredSeries hasKey (cached "FEDFUNDS") "FEDFUNDS" (upstream "FEDFUNDS")
    let pr ← fetchFredSeries hasKey (cached "DPRIME") "DPRIME" (upstream "DPRIME")
    pure [r30, r15, t10, ff, pr]
  match run with
  | .ok l => .ok l
  | .error e => .serverError e

/-- The `:type` → series-id map of `GET /api/rates/:type`
(src/server.js lines 341-356). -/
def rateTypeMap (t : String) : Option String :=
  match t with
  | "30yr" => some "MORTGAGE30US"
  | "15yr" => some "MORTGAGE15US"
  | "treasury10" => some "DGS10"
  | "fedfunds" => some "FEDFUNDS"
  | "prime" => some "DPRIME"
  | _ => none

/-- The single-series `GET /api/rates/:type` handler: unknown type →
400, thrown fetch error → 500. -/
def singleSeriesHandler (hasKey : Bool) (cached : String → Option ResolvedSeries)
    (t : String) (upstream : String → Upstream) : HttpOutcome ResolvedSeries :=
  match rateTypeMap t with
  | none => .clientError
  | some sid =>
    match fetchFredSeries hasKey (cached sid) sid (upstream sid) with
    | .ok r => .ok r
    | .error e => .serverError e

/-- C3 counterexample: with credentials configured, a cold cache and a
simulated upstream outage, the aggregate `/api/rates` handler does NOT
return the static fallback — the outage surfaces as a 500 server
error. -/
theorem ratesHandler_outage_is_server_error :
    ratesHandler true (fun _ => none) (fun _ => .unavailable)
      = .serverError .upstreamUnavailable := by
  with_unfolding_all rfl

/-- C3 (amended): the static-fallback path is selected by MISSING
credentials, not by an outage: without a key every resolve (and hence
the aggregate handler) returns the static fallback records without
raising, regardless of the upstream; with a key, an upstream outage
propagates as `upstreamUnavailable` out of `fetchFredSeries` and
surfaces as a 500 from the single-series handler (and from the
aggregate handler, per the counterexample). -/
theorem fetch_fallback_spec :
    (∀ (sid : String) (u : Upstream),
      fetchFredSeries false none sid u = .ok (fallbackRecord sid))
    ∧ (∀ sid : String, fetchFredSeries true none sid .unavailable
        = .error .upstreamUnavailable)
    ∧ (∀ u : String → Upstream,
        ratesHandler false (fun _ => none) u
          = .ok [fallbackRecord "MORTGAGE30US", fallbackRecord "MORTGAGE15US",
              fallbackRecord "DGS10", fallbackRecord "FEDFUNDS", fallbackRecord "DPRIME"])
    ∧ (singleSeriesHandler true (fun _ => none) "30yr" (fun _ => .unavailable)
        = .serverError .upstreamUnavailable) := by
  refine ⟨fun sid u => rfl, fun sid => rfl, fun u => rfl, ?_⟩
  with_unfolding_all rfl

/-!
## Concurrency model for `fetchFredSeries` on one series key

`fetchFredSeries` (src/server.js lines 81-123) runs synchronously from
entry through `cache.get` and the firing of the axios request, then
suspends at the `await`; when the response arrives it processes the
observations, writes the cache and returns.  One resolve call is
therefore a task with three program points:
`start` (before the cache check), `awaiting` (request in flight), and
`done`.  The only shared state is the per-key cache slot; `fetches`
counts upstream requests issued.  The code keeps no in-flight registry,
so nothing links concurrent tasks.
-/

/-- Shared state for one series key: the cache slot and the number of
upstream requests issued so far. -/
structure FlightState where
  cache : Option ResolvedSeries
  fetches : ℕ
  deriving DecidableEq, Repr

/-- Program points of one resolve call. -/
inductive TaskPC
  | start
  | awaiting
  | done (r : ResolvedSeries)
  deriving DecidableEq, Repr

/-- One scheduler step of one task.  `result` is the record the
upstream response processes to (the same for every request of the same
key).  `start`: run `cache.get`; on a hit return the cached record, on
a miss issue the upstream request and suspend.  `awaiting`: the
response arrives — write the cache and return. -/
def stepTask (result : ResolvedSeries) (s : FlightState) :
    TaskPC → FlightState × TaskPC
  | .start =>
    match s.cache with
    | some c => (s, .done c)
    | none => ({ s with fetches := s.fetches + 1 }, .awaiting)
  | .awaiting => ({ s with cache := some result }, .done result)
  | .done r => (s, .done r)

/-- Run a schedule given as a list of task indices over a task list. -/
def runSched (result : ResolvedSeries) (sched : List ℕ)
    (st : FlightState × List TaskPC) : FlightState × List TaskPC :=
  sched.foldl
    (fun acc t =>
      match acc.2.get? t with
      | none => acc
      | some pc =>
        let x := stepTask result acc.1 pc
        (x.1, acc.2.set t x.2))
    st

/-- One round of the scheduler: every task takes one step, in order.
`stepRound` is `runSched` over the schedule `0, 1, …, n−1`; it is the
exact Node event-loop behaviour when several requests for the same key
arrive within one upstream round-trip. -/
def stepRound (result : ResolvedSeries) :
    FlightState → List TaskPC → FlightState × List TaskPC
  | s, [] => (s, [])
  | s, pc :: rest =>
    let x := stepTask result s pc
    let y := stepRound result x.1 rest
    (y.1, x.2 :: y.2)

/-- C5 counterexample: two resolve calls for the same key, both
arriving before any cache entry exists (schedule: both pass the cache
check, then both responses arrive), issue TWO upstream fetches — not
the exactly one the claim requires — though both callers do receive the
same record. -/
theorem two_cold_resolves_two_fetches :
    runSched (fallbackRecord "MORTGAGE30US") [0, 1, 0, 1]
        (⟨none, 0⟩, [.start, .start])
      = (⟨some (fallbackRecord "MORTGAGE30US"), 2⟩,
          [.done (fallbackRecord "MORTGAGE30US"),
           .done (fallbackRecord "MORTGAGE30US")])
    ∧ (2 : ℕ) ≠ 1 := by
  exact ⟨by with_unfolding_all rfl, by decide⟩

theorem stepRound_start (r : ResolvedSeries) :
    ∀ (m k : ℕ), stepRound r ⟨none, k⟩ (List.replicate m .start)
      = (⟨none, k + m⟩, List.replicate m .awaiting) := by
  intro m
  induction m with
  | zero => intro k; rfl
  | succ m ih =>
    intro k
    simp only [List.replicate_succ, stepRound, stepTask, ih (k + 1)]
    have hk : k + 1 + m = k + (m + 1) := by omega
    rw [hk]

theorem stepRound_await (r : ResolvedSeries) :
    ∀ (m : ℕ) (k : ℕ) (c : Option ResolvedSeries),
      stepRound r ⟨c, k⟩ (List.replicate m .awaiting)
        = (⟨if m = 0 then c else some r, k⟩, List.replicate m (.done r)) := by
  intro m
  induction m with
  | zero => intro k c; rfl
  | succ m ih =>
    intro k c
    simp only [List.replicate_succ, stepRound, stepTask, ih k (some r)]
    simp

/-- C5 (amended): the code performs no request coalescing — when
`n + 1` resolve calls for the same key all pass the cold-cache check
before any response arrives, each issues its own upstream fetch
(`n + 1` fetches in total), every caller still receives the same
record, and any resolve that starts once the cache is populated issues
no further fetch and returns the cached record. -/
theorem cold_cache_no_coalescing (r : ResolvedSeries) (n : ℕ) :
    (stepRound r (stepRound r ⟨none, 0⟩ (List.replicate (n+1) .start)).1
        (stepRound r ⟨none, 0⟩ (List.replicate (n+1) .start)).2
      = (⟨some r, n + 1⟩, List.replicate (n+1) (.done r)))
    ∧ stepTask r ⟨some r, n + 1⟩ .start = (⟨some r, n + 1⟩, .done r) := by
  constructor
  · rw [stepRound_start r (n+1) 0, stepRound_await r (n+1) (0 + (n+1)) none]
    simp
  · rfl

/-!
## Lender quote synthesizer (`GET /api/lender-quotes`, src/server.js lines 443-587)

The handler is embedded as a function of the request parameters, the
already-resolved base rates (`r30.value`, `r15.value` from
`fetchFredSeries`), the wall clock reading `now`
(`new Date().toISOString()`), and a function `sinq` modelling
`Math.sin` at the natural-number arguments `seed + i` the handler
evaluates it at.
-/

/-- `f i a` over a list with a running index, as
`selected.map((lender, i) => …)`. -/
def mapWithIdxAux (f : ℕ → α → β) : ℕ → List α → List β
  | _, [] => []
  | i, a :: as => f i a :: mapWithIdxAux f (i + 1) as

def mapWithIdx (f : ℕ → α → β) (l : List α) : List β :=
  mapWithIdxAux f 0 l

/-- One entry of the `LENDERS` roster (src/server.js lines 443-456). -/
structure Lender where
  id : String
  name : String
  logo : String
  type : String
  nmls : String
  minCredit : ℤ
  affilUrl : String
  deriving DecidableEq, Repr

/-- The `LENDERS` roster. -/
def LENDERS : List Lender :=
  [ ⟨"rocket", "Rocket Mortgage", "🚀", "online", "3030", 580, "https://www.rocketmortgage.com/?qls=rc_ratecroft"⟩,
    ⟨"uwm", "United Wholesale", "🏛️", "broker", "3038", 620, "https://www.uwm.com/"⟩,
    ⟨"loanDepot", "loanDepot", "💚", "online", "174457", 620, "https://www.loandepot.com/"⟩,
    ⟨"newrez", "NewRez", "🔵", "online", "3013", 620, "https://www.newrez.com/"⟩,
    ⟨"penfed", "PenFed CU", "🦅", "credit", "401822", 650, "https://www.penfed.org/mortgage"⟩,
    ⟨"bof a", "Bank of America", "🏦", "bank", "399802", 620, "https://www.bankofamerica.com/mortgage/"⟩,
    ⟨"chase", "Chase", "🏦", "bank", "399798", 620, "https://www.chase.com/personal/mortgage"⟩,
    ⟨"wells", "Wells Fargo", "🏦", "bank", "399801", 620, "https://www.wellsfargo.com/mortgage/"⟩,
    ⟨"better", "Better.com", "⚡", "online", "330511", 620, "https://better.com/"⟩,
    ⟨"guaranteed", "Guaranteed Rate", "✅", "online", "2611", 580, "https://www.rate.com/"⟩,
    ⟨"ally", "Ally Bank", "🟣", "online", "196733", 620, "https://www.ally.com/home-loans/"⟩,
    ⟨"flagstar", "Flagstar Bank", "🔴", "bank", "417490", 580, "https://www.flagstar.com/loans/mortgage.html"⟩ ]

/-- `STATE_RATE_ADJ` (src/server.js lines 459-464); unlisted states
fall through to the `?? 0.01` default at the use site. -/
def STATE_RATE_ADJ (st : String) : Option ℚ :=
  match st with
  | "CA" => some (-0.03) | "NY" => some (-0.04) | "MA" => some (-0.03)
  | "WA" => some (-0.02) | "CO" => some (-0.02) | "OR" => some (-0.02)
  | "TX" => some 0.02 | "FL" => some 0.01 | "GA" => some 0.01
  | "AZ" => some 0 | "NC" => some 0 | "VA" => some (-0.01)
  | "OH" => some 0.02 | "MI" => some 0.02 | "PA" => some 0.01
  | "IL" => some 0.01 | "NJ" => some (-0.01) | "MD" => some (-0.01)
  | _ => none

/-- `creditAdj` (src/server.js lines 467-478). -/
def creditAdj (score : ℤ) : ℚ :=
  if 780 ≤ score then 0
  else if 760 ≤ score then 0.05
  else if 740 ≤ score then 0.10
  else if 720 ≤ score then 0.18
  else if 700 ≤ score then 0.25
  else if 680 ≤ score then 0.35
  else if 660 ≤ score then 0.45
  else if 640 ≤ score then 0.60
  else if 620 ≤ score then 0.75
  else 1.00

/-- `ltvAdj` (src/server.js lines 481-491). -/
def ltvAdj (price down : ℚ) : ℚ :=
  let ltv := (price - down) / price * 100
  if ltv ≤ 60 then -0.15
  else if ltv ≤ 70 then -0.10
  else if ltv ≤ 75 then -0.05
  else if ltv ≤ 80 then 0
  else if ltv ≤ 85 then 0.10
  else if ltv ≤ 90 then 0.20
  else if ltv ≤ 95 then 0.30
  else 0.40

/-- `loanBaseRates[loanType] || r30.value` (src/server.js lines 507-515). -/
def loanBaseRate (loanType : String) (r30v r15v : ℚ) : ℚ :=
  match loanType with
  | "30yr" => r30v
  | "15yr" => r15v
  | "arm51" => round2 (r30v - 0.55)
  | "fha30" => round2 (r30v - 0.25)
  | "va30" => round2 (r30v - 0.50)
  | "jumbo30" => round2 (r30v + 0.25)
  | _ => r30v

/-- `loanTermMap[loanType] || 30` (src/server.js lines 524-525). -/
def loanTerm (loanType : String) : ℕ :=
  match loanType with
  | "15yr" => 15
  | _ => 30

/-- The purpose adjustment (src/server.js line 521). -/
def purposeAdjOf (purpose : String) : ℚ :=
  if purpose = "refinance" then 0.10 else if purpose = "cashout" then 0.30 else 0

/-- The `pmt` arrow function of the handler (src/server.js lines
527-530); both branches round to 2 decimals. -/
def quotePmt (p r : ℚ) (y : ℕ) : ℚ :=
  let mr := r / 100 / 12
  let n := y * 12
  if 0 < mr then round2 (p * (mr * qpow (1+mr) n) / (qpow (1+mr) n - 1))
  else round2 (p / n)

/-- `id.charCodeAt(0)`; every roster id is nonempty, so the default is
never taken. -/
def headCharCode (s : String) : ℕ := (s.data.headD ' ').toNat

/-- One lender quote.  `preIdx` is the model's name for JavaScript
object identity: the position `i` the quote had in the `selected.map`
that created it, used to apply the handler's in-place badge mutations
to the right object. -/
structure Quote where
  preIdx : ℕ
  lender : String
  lenderLogo : String
  lenderType : String
  nmls : String
  affilUrl : String
  rate : ℚ
  apr : ℚ
  points : ℚ
  fees : ℤ
  monthlyPmt : ℚ
  loanAmount : ℚ
  term : ℕ
  loanType : String
  badge : Option String
  deriving DecidableEq, Repr

/-- The quote built for lender number `i` (src/server.js lines
539-564), including the pre-sort badge the map already assigns to the
first three positions. -/
def mkQuote (sinq : ℕ → ℚ) (seed : ℕ)
    (baseRate stateAdj crAdj ltvA purposeAdj loan : ℚ) (term : ℕ)
    (loanType : String) (i : ℕ) (lender : Lender) : Quote :=
  let lenderVar := round3 ((i * 0.04 - 0.08) + sinq (seed + i) * 0.05)
  let rate := round3 (baseRate + stateAdj + crAdj + ltvA + purposeAdj + lenderVar)
  let points := round2 (0.5 + i * 0.08 - lenderVar * 2)
  let fees : ℤ := jsRound (2800 + i * 200 - lenderVar * 500)
  let apr := round3 (rate + 0.08 + points * 0.06 + (fees : ℚ) / loan * 0.04)
  { preIdx := i
    lender := lender.name
    lenderLogo := lender.logo
    lenderType := lender.type
    nmls := lender.nmls
    affilUrl := lender.affilUrl
    rate := rate
    apr := apr
    points := max 0 points
    fees := max 1500 fees
    monthlyPmt := quotePmt loan rate term
    loanAmount := loan
    term := term
    loanType := loanType
    badge := if i = 0 then some "Lowest Rate"
             else if i = 1 then some "Best Value"
             else if i = 2 then some "Lowest Fees"
             else none }

/-- Mutate (in the JavaScript sense) the badge of the quote object
identified by `idx`. -/
def setBadgeByIdx (qs : List Quote) (idx : ℕ) (b : String) : List Quote :=
  qs.map (fun q => if q.preIdx = idx then { q with badge := some b } else q)

/-- The post-generation badge steps (src/server.js lines 566-574):
sort by rate in place, overwrite `quotes[0].badge`, overwrite the badge
of the second-lowest-apr object, give the third-lowest-fees object
"Lowest Fees" only if it is unbadged.  Pre-sort badges of other objects
survive.  On an empty quote list, `quotes[0].badge = …` throws a
`TypeError` (modelled as `none`). -/
def assignBadges (qs : List Quote) : Option (List Quote) :=
  let sorted := sortStable (fun a b => decide (a.rate ≤ b.rate)) qs
  match sorted with
  | [] => none
  | q0 :: rest =>
    let s1 := { q0 with badge := some "Lowest Rate" } :: rest
    let s2 :=
      match (sortStable (fun a b => decide (a.apr ≤ b.apr)) s1).get? 1 with
      | some bv => setBadgeByIdx s1 bv.preIdx "Best Value"
      | none => s1
    let s3 :=
      match (sortStable (fun a b => decide (a.fees ≤ b.fees)) s2).get? 2 with
      | some lf => if lf.badge = none then setBadgeByIdx s2 lf.preIdx "Lowest Fees" else s2
      | none => s2
    some s3

/-- The `adjustments` object of the response. -/
structure Adjustments where
  state : ℚ
  credit : ℚ
  ltv : ℚ
  purpose : ℚ
  deriving DecidableEq, Repr

/-- Ways the embedded handler can fail: the `TypeError` from indexing
`quotes[0]` on an empty list (caught by the route's `catch`, which
answers 500), and the model's rejection of a normalized state shorter
than 2 characters (where JavaScript would silently produce `NaN`
rates — outside every claim's scope). -/
inductive QuotesError
  | typeError
  | badState
  deriving DecidableEq, Repr

/-- The `/api/lender-quotes` response (src/server.js lines 576-582). -/
structure QuotesResponse where
  state : String
  loanType : String
  creditScore : ℤ
  price : ℚ
  down : ℚ
  loan : ℚ
  purpose : String
  term : ℕ
  baseRate : ℚ
  adjustments : Adjustments
  updatedAt : String
  quotes : List Quote
  deriving DecidableEq, Repr

/-- The `GET /api/lender-quotes` handler (src/server.js lines 493-587).
`sinq` models `Math.sin`; `r30v`, `r15v` are the resolved base rates;
`now` is the wall-clock reading used for `updatedAt`. -/
def lenderQuotes (sinq : ℕ → ℚ) (r30v r15v : ℚ) (now : String)
    (state loanType : String) (creditScore : ℤ) (price down : ℚ)
    (purpose : String) : Except QuotesError QuotesResponse :=
  let st := (state.toUpper.take 2)
  match st.data with
  | [c0, c1] =>
    let seed := c0.toNat + c1.toNat
    let loan := price - down
    let baseRate := loanBaseRate loanType r30v r15v
    let stateAdj := (STATE_RATE_ADJ st).getD 0.01
    let crAdj := creditAdj creditScore
    let ltvA := ltvAdj price down
    let purposeAdj := purposeAdjOf purpose
    let term := loanTerm loanType
    let eligible := LENDERS.filter (fun l => l.minCredit ≤ creditScore)
    let sorted := sortStable
      (fun a b => decide ((headCharCode a.id + seed) % 7 ≤ (headCharCode b.id + seed) % 7))
      eligible
    let selected := sorted.take 8
    let quotes := mapWithIdx
      (fun i lender => mkQuote sinq seed baseRate stateAdj crAdj ltvA purposeAdj loan term loanType i lender)
      selected
    match assignBadges quotes with
    | none => .error .typeError
    | some qs =>
      .ok { state := st
            loanType := loanType
            creditScore := creditScore
            price := price
            down := down
            loan := loan
            purpose := purpose
            term := term
            baseRate := baseRate
            adjustments := { state := stateAdj, credit := crAdj, ltv := ltvA, purpose := purposeAdj }
            updatedAt := now
            quotes := qs }
  | _ => .error .badState

/-- Model of `Math.sin` at the natural-number arguments the concrete
theorems below evaluate it at: the IEEE-754 double values of
`Math.sin(n)` for `n = 132…142` (covering `seed + i` for the states
"CA", seed `67+65 = 132`, and "AF", seed `65+70 = 135`), transcribed to
17 significant digits.  Every rounded quantity the theorems depend on
is far from a rounding boundary relative to the transcription error.
Other arguments (unused by the theorems) are 0. -/
def sinTable (n : ℕ) : ℚ :=
  match n with
  | 132 => 0.05308358714605824
  | 133 => 0.8689657562142357
  | 134 => 0.8859248164599484
  | 135 => 0.08836868610400143
  | 136 => -0.7904332067228887
  | 137 => -0.9425144545582509
  | 138 => -0.2280522595008612
  | 139 => 0.6960801312247415
  | 140 => 0.9802396594403116
  | 141 => 0.363171365373259
  | 142 => -0.5877950071674065
  | _ => 0

/-- C1 (code bug): for `state="AF"` (otherwise handler defaults, base
rates from the no-key fallback: `r30 = 6.76`, `r15 = 6.03`), the
returned 8-quote set carries its single "Lowest Rate" badge on the
quote with rate `6.744`, while the set's minimum rate is `6.74` — the
pre-sort badge of the map survives the rate sort, so the badge is NOT
on a minimum-rate quote. -/
theorem lowest_rate_badge_on_nonminimal_quote :
    ((lenderQuotes sinTable 6.76 6.03 "2026-03-01T00:00:00.000Z" "AF" "30yr"
        760 500000 100000 "purchase").toOption.map
      (fun r => ((r.quotes.filter (fun q => q.badge = some "Lowest Rate")).map (fun q => q.rate),
                 r.quotes.map (fun q => q.rate))))
    = some ([6.744], [6.74, 6.744, 6.773, 6.849, 6.935, 6.989, 6.991, 6.998])
    ∧ (6.74 : ℚ) < 6.744 := by
  exact ⟨by with_unfolding_all rfl, by norm_num⟩

/-- C4 counterexample: two calls with identical arguments and identical
resolved base rates made at different wall-clock instants return
different responses — the `updatedAt` field is the clock reading, so
the output is not byte-identical. -/
theorem lenderQuotes_output_not_byte_identical :
    ((lenderQuotes sinTable 6.76 6.03 "2026-03-01T00:00:00.000Z" "CA" "30yr"
        760 500000 100000 "purchase").toOption.map (fun r => r.updatedAt))
      = some "2026-03-01T00:00:00.000Z"
    ∧ ((lenderQuotes sinTable 6.76 6.03 "2026-03-01T00:00:07.000Z" "CA" "30yr"
        760 500000 100000 "purchase").toOption.map (fun r => r.updatedAt))
      = some "2026-03-01T00:00:07.000Z"
    ∧ ("2026-03-01T00:00:00.000Z" : String) ≠ "2026-03-01T00:00:07.000Z" := by
  exact ⟨by with_unfolding_all rfl, by with_unfolding_all rfl, by decide⟩

/-- C4 (amended): every field of the response except `updatedAt` is a
deterministic function of the request arguments, the resolved base
rates, and the fixed `Math.sin` function — two calls with identical
arguments agree everywhere but on the wall-clock `updatedAt` field.
(The quantification over `sinq` shows no other non-reproducible source
enters: the per-lender variation reads only `seed + i`.) -/
theorem lenderQuotes_deterministic_except_updatedAt
    (sinq : ℕ → ℚ) (r30v r15v : ℚ) (now now' : String)
    (state loanType : String) (creditScore : ℤ) (price down : ℚ) (purpose : String) :
    (lenderQuotes sinq r30v r15v now state loanType creditScore price down purpose).map
      (fun r => { r with updatedAt := "" })
    = (lenderQuotes sinq r30v r15v now' state loanType creditScore price down purpose).map
      (fun r => { r with updatedAt := "" }) := by
  unfold lenderQuotes
  rcases h : ((state.toUpper.take 2)).data with _ | ⟨c0, _ | ⟨c1, _ | ⟨c2, rest2⟩⟩⟩ <;>
    simp only [h]
  case cons.cons.nil =>
    split
    case h_1 => rfl
    case h_2 => rfl

/-- C10: when the requested credit score is below the roster-wide
minimum threshold 580, the eligible lender set is empty and the
handler does not answer with an empty quote list: the unguarded
`quotes[0].badge` assignment on the empty array throws, and the
request fails with an error (the route's catch answers 500). -/
theorem lenderQuotes_low_credit_errors
    (sinq : ℕ → ℚ) (r30v r15v : ℚ) (now state loanType : String)
    (creditScore : ℤ) (price down : ℚ) (purpose : String)
    (c0 c1 : Char) (hst : (state.toUpper.take 2).data = [c0, c1])
    (hcs : creditScore < 580) :
    LENDERS.filter (fun l => l.minCredit ≤ creditScore) = []
    ∧ lenderQuotes sinq r30v r15v now state loanType creditScore price down purpose
      = .error .typeError := by
  have h580 : ¬ ((580:ℤ) ≤ creditScore) := by omega
  have h620 : ¬ ((620:ℤ) ≤ creditScore) := by omega
  have h650 : ¬ ((650:ℤ) ≤ creditScore) := by omega
  have hfil : LENDERS.filter (fun l => l.minCredit ≤ creditScore) = [] := by
    simp [LENDERS, List.filter, h580, h620, h650]
  refine ⟨hfil, ?_⟩
  unfold lenderQuotes
  simp only [hst]
  rw [hfil]
  rfl

/-- Witness for `lenderQuotes_low_credit_errors` at credit score 500,
state "CA". -/
theorem lenderQuotes_low_credit_errors_witness :
    LENDERS.filter (fun l => l.minCredit ≤ (500:ℤ)) = []
    ∧ lenderQuotes sinTable 6.76 6.03 "2026-03-01T00:00:00.000Z" "CA" "30yr"
        500 500000 100000 "purchase" = .error .typeError :=
  lenderQuotes_low_credit_errors sinTable 6.76 6.03 "2026-03-01T00:00:00.000Z"
    "CA" "30yr" 500 500000 100000 "purchase" 'C' 'A'
    (by with_unfolding_all rfl) (by decide)

end MortgageWise
